import Mathlib

/-
  Shallow embedding of the Video-Compressor-Service wire protocol and
  connection-handling layer (src/server.py, src/client.py), with theorems
  settling the frozen claims about the specification.
-/

namespace VCS

/-- Header size in bytes (server.py line 17, client.py line 13). -/
def HEADER_SIZE : Nat := 8

/-- Maximum byte length of the JSON segment (server.py line 18, client.py line 14). -/
def MAX_JSON_SIZE : Nat := 216

/-- Maximum byte length of the media-type segment (server.py line 19, client.py line 15). -/
def MAX_MEDIA_TYPE_SIZE : Nat := 4

/-- Maximum payload size, the Python expression `(1 << 40)` (server.py line 20,
client.py line 16). -/
def MAX_PAYLOAD_SIZE : Nat := 2 ^ 40

/-- Big-endian base-256 digits of `n`, exactly `l` digits: the byte string produced
by a successful Python `n.to_bytes(l, 'big')`. -/
def toBytesBE : Nat → Nat → List Nat
  | 0, _ => []
  | l + 1, n => toBytesBE l (n / 256) ++ [n % 256]

/-- Python `n.to_bytes(l, 'big')`: `none` models the `OverflowError` raised when
`n` does not fit in `l` bytes. -/
def to_bytes (l n : Nat) : Option (List Nat) :=
  if n < 256 ^ l then some (toBytesBE l n) else none

/-- Python `int.from_bytes(bs, 'big')`. -/
def from_bytes (bs : List Nat) : Nat :=
  bs.foldl (fun acc b => acc * 256 + b) 0

theorem toBytesBE_length (l n : Nat) : (toBytesBE l n).length = l := by
  induction l generalizing n with
  | zero => rfl
  | succ l ih => simp [toBytesBE, ih]

theorem from_bytes_append (xs : List Nat) (b : Nat) :
    from_bytes (xs ++ [b]) = from_bytes xs * 256 + b := by
  simp [from_bytes, List.foldl_append]

theorem from_bytes_toBytesBE (l : Nat) :
    ∀ n, n < 256 ^ l → from_bytes (toBytesBE l n) = n := by
  induction l with
  | zero =>
    intro n h
    have h0 : n = 0 := by simpa [Nat.lt_one_iff] using h
    subst h0
    rfl
  | succ l ih =>
    intro n h
    have hdiv : n / 256 < 256 ^ l := by
      apply (Nat.div_lt_iff_lt_mul (by norm_num)).mpr
      calc n < 256 ^ (l + 1) := h
        _ = 256 ^ l * 256 := by rw [pow_succ]
    simp only [toBytesBE]
    rw [from_bytes_append, ih _ hdiv]
    omega

theorem take_append_self {α : Type} (l₁ l₂ : List α) :
    (l₁ ++ l₂).take l₁.length = l₁ := by
  induction l₁ with
  | nil => rfl
  | cons a t ih => simp only [List.length_cons, List.cons_append, List.take_succ_cons, ih]

theorem drop_append_self {α : Type} (l₁ l₂ : List α) :
    (l₁ ++ l₂).drop l₁.length = l₂ := by
  induction l₁ with
  | nil => rfl
  | cons a t ih => simp only [List.length_cons, List.cons_append, List.drop_succ_cons, ih]

theorem take_append_eq {α : Type} {l₁ : List α} {n : Nat} (l₂ : List α)
    (h : l₁.length = n) : (l₁ ++ l₂).take n = l₁ := by
  rw [← h, take_append_self]

theorem drop_append_eq {α : Type} {l₁ : List α} {n : Nat} (l₂ : List α)
    (h : l₁.length = n) : (l₁ ++ l₂).drop n = l₂ := by
  rw [← h, drop_append_self]

theorem take_eq_self {α : Type} {l : List α} {n : Nat} (h : l.length = n) :
    l.take n = l := by
  have := take_append_eq ([] : List α) h
  simpa using this

/-- Error raised by the header-building path: `sizeExceeded` models the explicit
`ValueError` size checks (client.py lines 55-64, server.py lines 67-69);
`overflow` models the `OverflowError` raised by `int.to_bytes` when the value
does not fit the requested field width. -/
inductive EncodeError where
  | sizeExceeded (message : String)
  | overflow
deriving DecidableEq

/-- Header encoding as performed by client.py `send_request` (lines 53-68): three
size checks in order with strict `>` bounds, then
`json_size.to_bytes(2,'big') + bytes([media_type_size]) + payload_size.to_bytes(5,'big')`.
server.py `send_response` (lines 67-76) builds the identical 8 bytes with the
same strict `>` bounds. -/
def encode_header (json_size media_type_size payload_size : Nat) :
    Except EncodeError (List Nat) :=
  if json_size > MAX_JSON_SIZE then
    Except.error (EncodeError.sizeExceeded "JSON size exceeds max allowed.")
  else if media_type_size > MAX_MEDIA_TYPE_SIZE then
    Except.error (EncodeError.sizeExceeded "Media type size exceeds maximum allowed.")
  else if payload_size > MAX_PAYLOAD_SIZE then
    Except.error (EncodeError.sizeExceeded "Payload size exceeds maximum allowed.")
  else
    match to_bytes 2 json_size, to_bytes 1 media_type_size, to_bytes 5 payload_size with
    | some jb, some mb, some pb => Except.ok (jb ++ mb ++ pb)
    | _, _, _ => Except.error EncodeError.overflow

/-- Header decoding as performed by server.py `handle_client` (lines 121-123) and
client.py `receive_response` (lines 92-94): `int.from_bytes(header[:2],'big')`,
`header[2]`, `int.from_bytes(header[3:8],'big')`. Callers always pass the 8 bytes
returned by `recv_all(..., HEADER_SIZE)`, so indexing is in range. -/
def decode_header (header : List Nat) : Nat × Nat × Nat :=
  (from_bytes (header.take 2), (header.drop 2).headD 0,
    from_bytes ((header.drop 3).take 5))

theorem pow_256_2 : (256 : Nat) ^ 2 = 65536 := by norm_num

theorem pow_256_5 : (256 : Nat) ^ 5 = 2 ^ 40 := by norm_num

/-- Claim C8: for every triple with `json_size ≤ 216`, `media_type_size ≤ 4` and
`payload_size ≤ 2^40 - 1`, encoding into the 8-byte big-endian header (u16, u8,
u40) and then decoding that header reconstructs the same triple. -/
theorem c8_header_roundtrip (j m p : Nat)
    (hj : j ≤ MAX_JSON_SIZE) (hm : m ≤ MAX_MEDIA_TYPE_SIZE) (hp : p ≤ 2 ^ 40 - 1) :
    ∃ h, encode_header j m p = Except.ok h ∧ h.length = HEADER_SIZE ∧
      decode_header h = (j, m, p) := by
  have hjn : j ≤ 216 := hj
  have hmn : m ≤ 4 := hm
  have hj' : j < 256 ^ 2 := by rw [pow_256_2]; omega
  have hm' : m < 256 ^ 1 := by omega
  have hp' : p < 256 ^ 5 := by
    rw [pow_256_5]
    have h40 : 1 ≤ 2 ^ 40 := Nat.one_le_two_pow
    omega
  refine ⟨toBytesBE 2 j ++ (toBytesBE 1 m ++ toBytesBE 5 p), ?_, ?_, ?_⟩
  · have hp2 : p ≤ MAX_PAYLOAD_SIZE := le_trans hp (Nat.sub_le _ _)
    unfold encode_header
    rw [if_neg (not_lt.mpr hj), if_neg (not_lt.mpr hm), if_neg (not_lt.mpr hp2)]
    simp only [to_bytes, if_pos hj', if_pos hm', if_pos hp']
    rfl
  · simp [toBytesBE_length, HEADER_SIZE]
  · have hB : toBytesBE 1 m = [m % 256] := by simp [toBytesBE]
    have hmmod : m % 256 = m := Nat.mod_eq_of_lt (by omega)
    unfold decode_header
    have h1 : (toBytesBE 2 j ++ (toBytesBE 1 m ++ toBytesBE 5 p)).take 2
        = toBytesBE 2 j := take_append_eq _ (toBytesBE_length 2 j)
    have h2 : (toBytesBE 2 j ++ (toBytesBE 1 m ++ toBytesBE 5 p)).drop 2
        = toBytesBE 1 m ++ toBytesBE 5 p := drop_append_eq _ (toBytesBE_length 2 j)
    have h3 : (toBytesBE 2 j ++ (toBytesBE 1 m ++ toBytesBE 5 p)).drop 3
        = toBytesBE 5 p := by
      rw [← List.append_assoc]
      refine drop_append_eq _ ?_
      simp [toBytesBE_length]
    rw [h1, h2, h3, from_bytes_toBytesBE 2 j hj', hB, hmmod]
    have h4 : (toBytesBE 5 p).take 5 = toBytesBE 5 p :=
      take_eq_self (toBytesBE_length 5 p)
    rw [h4, from_bytes_toBytesBE 5 p hp']
    simp

/-- Witness for C8 at the concrete triple (3, 2, 5). -/
theorem c8_witness :
    ∃ h, encode_header 3 2 5 = Except.ok h ∧ h.length = HEADER_SIZE ∧
      decode_header h = (3, 2, 5) :=
  c8_header_roundtrip 3 2 5 (by decide) (by decide) (by decide)

/-- Claim C7 counterexample: at payload_size = 2^40 the explicit size check (strict
`>` against `MAX_PAYLOAD_SIZE = 2^40`) does not fire; the failure is the
`OverflowError` from `payload_size.to_bytes(5, 'big')`, not a size-exceeded
`ValueError`. -/
theorem c7_counterexample :
    encode_header 0 0 (2 ^ 40) = Except.error EncodeError.overflow ∧
      ∀ msg, encode_header 0 0 (2 ^ 40) ≠ Except.error (EncodeError.sizeExceeded msg) := by
  have h1 : encode_header 0 0 (2 ^ 40) = Except.error EncodeError.overflow := by rfl
  refine ⟨h1, ?_⟩
  intro msg hmsg
  rw [h1] at hmsg
  simp at hmsg

/-- Claim C7 (amended): header encoding fails exactly when an argument exceeds its
maximum (216 / 4 / 2^40-1): every in-range triple is accepted; json_size = 217 and
media_type_size = 5 fail with the explicit size-check error; payload_size = 2^40
also fails, but via the 5-byte conversion overflow rather than the explicit check,
because the code's `MAX_PAYLOAD_SIZE` is 2^40 and the check uses strict `>`. -/
theorem c7_amended :
    (∀ j m p, j ≤ 216 → m ≤ 4 → p ≤ 2 ^ 40 - 1 →
      ∃ h, encode_header j m p = Except.ok h) ∧
    (∀ j m p, 216 < j ∨ 4 < m ∨ 2 ^ 40 - 1 < p →
      ∃ e, encode_header j m p = Except.error e) ∧
    encode_header 217 0 0
      = Except.error (EncodeError.sizeExceeded "JSON size exceeds max allowed.") ∧
    encode_header 0 5 0
      = Except.error (EncodeError.sizeExceeded "Media type size exceeds maximum allowed.") ∧
    encode_header 0 0 (2 ^ 40) = Except.error EncodeError.overflow := by
  refine ⟨?_, ?_, by rfl, by rfl, by rfl⟩
  · intro j m p hj hm hp
    obtain ⟨h, hh, -, -⟩ := c8_header_roundtrip j m p hj hm hp
    exact ⟨h, hh⟩
  · intro j m p hcase
    unfold encode_header
    by_cases hj : j > MAX_JSON_SIZE
    · rw [if_pos hj]; exact ⟨_, rfl⟩
    · rw [if_neg hj]
      by_cases hm : m > MAX_MEDIA_TYPE_SIZE
      · rw [if_pos hm]; exact ⟨_, rfl⟩
      · rw [if_neg hm]
        by_cases hp : p > MAX_PAYLOAD_SIZE
        · rw [if_pos hp]; exact ⟨_, rfl⟩
        · rw [if_neg hp]
          have hjn : j ≤ 216 := not_lt.mp hj
          have hmn : m ≤ 4 := not_lt.mp hm
          have hpn : p ≤ 2 ^ 40 := not_lt.mp hp
          have hpbig : 2 ^ 40 - 1 < p := by
            rcases hcase with h | h | h
            · omega
            · omega
            · exact h
          have hj' : j < 256 ^ 2 := by rw [pow_256_2]; omega
          have hm' : m < 256 ^ 1 := by omega
          have hp0 : ¬ p < 256 ^ 5 := by
            rw [pow_256_5]
            have h40 : 1 ≤ 2 ^ 40 := Nat.one_le_two_pow
            omega
          simp only [to_bytes, if_pos hj', if_pos hm', if_neg hp0]
          exact ⟨_, rfl⟩

/-- Witness for the amended C7: an in-range triple encodes, and an over-maximum
json size is rejected. -/
theorem c7_amended_witness :
    (∃ h, encode_header 1 1 1 = Except.ok h) ∧
      ∃ e, encode_header 300 0 0 = Except.error e :=
  ⟨c7_amended.1 1 1 1 (by decide) (by decide) (by decide),
    c7_amended.2.1 300 0 0 (Or.inl (by decide))⟩

/-- UTF-8 encoding of one Unicode code point as byte values. -/
def charUtf8 (n : Nat) : List Nat :=
  if n < 128 then [n]
  else if n < 2048 then [192 + n / 64, 128 + n % 64]
  else if n < 65536 then [224 + n / 4096, 128 + n / 64 % 64, 128 + n % 64]
  else [240 + n / 262144, 128 + n / 4096 % 64, 128 + n / 64 % 64, 128 + n % 64]

/-- Python `s.encode('utf-8')` as a list of byte values. -/
def utf8Bytes (s : String) : List Nat :=
  s.data.foldr (fun c acc => charUtf8 c.toNat ++ acc) []

/-- Python `json.dumps({"status": status, "message": message})` for status and
message strings that need no JSON escaping (the form built in server.py line 61). -/
def jsonDumpsResponse (status message : String) : String :=
  "\x7b\"status\": \"" ++ status ++ "\", \"message\": \"" ++ message ++ "\"\x7d"

/-- Server response sending, server.py `send_response` (lines 55-84): serializes
the JSON, checks the three sizes with one combined strict `>` test (raising
`ValueError`, caught by the function's own `except`, so that nothing is sent),
builds the 8-byte header, and otherwise sends `b"FINAL:\n"` followed by the
header and then the JSON, media-type and payload bytes. The result is the full
byte sequence written to the connection, or `none` when the internal exception
path sent nothing. -/
def send_response (status message media_type : String) (payload : List Nat) :
    Option (List Nat) :=
  let response_json := utf8Bytes (jsonDumpsResponse status message)
  let json_size := response_json.length
  let media_type_encoded := utf8Bytes media_type
  let media_type_size := media_type_encoded.length
  let payload_size := payload.length
  if json_size > MAX_JSON_SIZE ∨ media_type_size > MAX_MEDIA_TYPE_SIZE
      ∨ payload_size > MAX_PAYLOAD_SIZE then
    none
  else
    match to_bytes 2 json_size, to_bytes 1 media_type_size, to_bytes 5 payload_size with
    | some jb, some mb, some pb =>
      some (utf8Bytes "FINAL:\n" ++ (jb ++ mb ++ pb)
        ++ (response_json ++ media_type_encoded ++ payload))
    | _, _, _ => none

/-- Claim C2 (code bug): the server does not write the response as header followed
by body alone — `send_response` first writes the 7 marker bytes `b"FINAL:\n"`, so
the first 8 bytes on the wire differ from the 8-byte header that the framing (and
the repository's own client, client.py lines 91-94) requires. Evaluated at the
concrete response (status "error", message "x", empty media type, empty payload). -/
theorem c2_code_bug :
    send_response "error" "x" "" []
      = some (utf8Bytes "FINAL:\n"
          ++ (toBytesBE 2 (utf8Bytes (jsonDumpsResponse "error" "x")).length
              ++ [0] ++ toBytesBE 5 0)
          ++ utf8Bytes (jsonDumpsResponse "error" "x")) ∧
    utf8Bytes "FINAL:\n" ≠ [] ∧
    (utf8Bytes "FINAL:\n"
        ++ (toBytesBE 2 (utf8Bytes (jsonDumpsResponse "error" "x")).length
            ++ [0] ++ toBytesBE 5 0)
        ++ utf8Bytes (jsonDumpsResponse "error" "x")).take 8
      ≠ toBytesBE 2 (utf8Bytes (jsonDumpsResponse "error" "x")).length
          ++ [0] ++ toBytesBE 5 0 := by
  refine ⟨?_, by decide, by decide⟩
  rfl

/-- Helper: whenever one of the three outgoing sizes exceeds its maximum,
server.py `send_response` raises `ValueError` inside its own try block, the
except clause swallows it, and no bytes at all are written. -/
theorem send_response_oversize (status message media_type : String)
    (payload : List Nat)
    (h : (utf8Bytes (jsonDumpsResponse status message)).length > MAX_JSON_SIZE
      ∨ (utf8Bytes media_type).length > MAX_MEDIA_TYPE_SIZE
      ∨ payload.length > MAX_PAYLOAD_SIZE) :
    send_response status message media_type payload = none := by
  unfold send_response
  exact if_pos h

set_option maxRecDepth 40000 in
/-- Claim C6 counterexample: a response whose JSON segment is 284 bytes (message of
250 characters) exceeds MAX_JSON_SIZE = 216, and `send_response` writes nothing at
all on the connection — the client receives no well-framed message. -/
theorem c6_counterexample :
    (utf8Bytes (jsonDumpsResponse "error" (String.mk (List.replicate 250 'a')))).length
        > MAX_JSON_SIZE ∧
    send_response "error" (String.mk (List.replicate 250 'a')) "" [] = none := by
  constructor
  · decide
  · exact send_response_oversize _ _ _ _ (Or.inl (by decide))

/-- Claim C6 (amended): if an outgoing response would violate a size maximum, the
server sends nothing at all: the `ValueError` raised by the size check is caught
by `send_response`'s own except clause, which only logs, so no bytes — neither a
truncated message nor a substituted minimal error response — reach the client. -/
theorem c6_amended (status message media_type : String) (payload : List Nat)
    (h : (utf8Bytes (jsonDumpsResponse status message)).length > MAX_JSON_SIZE
      ∨ (utf8Bytes media_type).length > MAX_MEDIA_TYPE_SIZE
      ∨ payload.length > MAX_PAYLOAD_SIZE) :
    send_response status message media_type payload = none :=
  send_response_oversize status message media_type payload h

/-- Witness for the amended C6: a five-byte media type exceeds the 4-byte maximum
and nothing is sent. -/
theorem c6_amended_witness :
    send_response "success" "Processing completed." "abcde" [] = none :=
  c6_amended "success" "Processing completed." "abcde" []
    (Or.inr (Or.inl (by decide)))

/-- Exact-byte-count receive, server.py `recv_all` (lines 44-52) and client.py
`recv_all` (lines 35-43): returns the first `n` bytes of the stream together with
the remainder, or `none` for the `EOFError` raised when the stream ends before
`n` bytes arrive. -/
def recv_all (stream : List Nat) (n : Nat) : Option (List Nat × List Nat) :=
  if stream.length < n then none
  else some (stream.take n, stream.drop n)

/-- Receive phase of server.py `handle_client` (lines 119-128): read the 8 header
bytes, decode `json_size` / `media_type_size` / `payload_size` (the `.1`, `.2.1`,
`.2.2` components of `decode_header`), then immediately read the three body
segments of exactly those declared lengths. No comparison of the decoded sizes
against the protocol maxima appears anywhere between the decode and the reads. -/
def handle_client_receive (stream : List Nat) :
    Option (List Nat × List Nat × List Nat) :=
  match recv_all stream HEADER_SIZE with
  | none => none
  | some (header, s1) =>
    match recv_all s1 (decode_header header).1 with
    | none => none
    | some (json_data, s2) =>
      match recv_all s2 (decode_header header).2.1 with
      | none => none
      | some (media_type, s3) =>
        match recv_all s3 (decode_header header).2.2 with
        | none => none
        | some (payload, _) => some (json_data, media_type, payload)

theorem recv_all_of_le {stream : List Nat} {n : Nat} (h : n ≤ stream.length) :
    recv_all stream n = some (stream.take n, stream.drop n) := by
  unfold recv_all
  rw [if_neg (by omega)]

set_option maxRecDepth 40000 in
/-- Claim C1 counterexample: a header declaring `json_size = 217 > MAX_JSON_SIZE`
is not rejected — the server's receive phase goes on to read a 217-byte JSON body
segment driven by the attacker-supplied size. -/
theorem c1_counterexample :
    decode_header [0, 217, 0, 0, 0, 0, 0, 0] = (217, 0, 0) ∧
    217 > MAX_JSON_SIZE ∧
    handle_client_receive ([0, 217, 0, 0, 0, 0, 0, 0] ++ List.replicate 217 97)
      = some (List.replicate 217 97, [], []) := by
  refine ⟨by decide, by decide, ?_⟩
  decide

/-- Claim C1 (amended): after decoding the 8-byte header the server performs no
validation of the declared sizes against the protocol maxima; for every header
and every sufficiently long body it reads three body segments of exactly the
declared lengths, whatever those lengths are (they are bounded only by the header
field widths json < 2^16, media type < 2^8, payload < 2^40). -/
theorem c1_amended (header body : List Nat) (hlen : header.length = HEADER_SIZE)
    (hbody : (decode_header header).1 + (decode_header header).2.1
      + (decode_header header).2.2 ≤ body.length) :
    ∃ js mt pl, handle_client_receive (header ++ body) = some (js, mt, pl) ∧
      js.length = (decode_header header).1 ∧
      mt.length = (decode_header header).2.1 ∧
      pl.length = (decode_header header).2.2 := by
  unfold handle_client_receive
  have h0 : recv_all (header ++ body) HEADER_SIZE = some (header, body) := by
    unfold recv_all
    rw [if_neg (by simp [hlen, HEADER_SIZE])]
    rw [take_append_eq body hlen, drop_append_eq body hlen]
  have h1 : recv_all body (decode_header header).1
      = some (body.take (decode_header header).1, body.drop (decode_header header).1) :=
    recv_all_of_le (by omega)
  have hd1 : (body.drop (decode_header header).1).length
      = body.length - (decode_header header).1 := List.length_drop _ _
  have h2 : recv_all (body.drop (decode_header header).1) (decode_header header).2.1
      = some ((body.drop (decode_header header).1).take (decode_header header).2.1,
          (body.drop (decode_header header).1).drop (decode_header header).2.1) :=
    recv_all_of_le (by omega)
  have hd2 : ((body.drop (decode_header header).1).drop (decode_header header).2.1).length
      = body.length - (decode_header header).1 - (decode_header header).2.1 := by
    simp [List.length_drop]
    omega
  have h3 : recv_all ((body.drop (decode_header header).1).drop (decode_header header).2.1)
        (decode_header header).2.2
      = some (((body.drop (decode_header header).1).drop
            (decode_header header).2.1).take (decode_header header).2.2,
          ((body.drop (decode_header header).1).drop
            (decode_header header).2.1).drop (decode_header header).2.2) :=
    recv_all_of_le (by omega)
  simp only [h0, h1, h2, h3]
  refine ⟨_, _, _, rfl, ?_, ?_, ?_⟩
  · simp
    omega
  · simp [List.length_drop]
    omega
  · simp [List.length_drop]
    omega

/-- Witness for the amended C1 at a concrete header declaring sizes (2, 1, 1) and
a 4-byte body. -/
theorem c1_amended_witness :
    ∃ js mt pl,
      handle_client_receive ([0, 2, 1, 0, 0, 0, 0, 1] ++ [97, 98, 99, 100])
        = some (js, mt, pl) ∧
      js.length = (decode_header [0, 2, 1, 0, 0, 0, 0, 1]).1 ∧
      mt.length = (decode_header [0, 2, 1, 0, 0, 0, 0, 1]).2.1 ∧
      pl.length = (decode_header [0, 2, 1, 0, 0, 0, 0, 1]).2.2 :=
  c1_amended [0, 2, 1, 0, 0, 0, 0, 1] [97, 98, 99, 100] (by decide) (by decide)

/-- The Python dict `active_ips` (server.py line 28): a partial map from client
address to its active-operation counter; `none` means no entry for that key. -/
abbrev ActiveIPs := String → Option Nat

/-- The empty dict. -/
def emptyIPs : ActiveIPs := fun _ => none

/-- Python `active_ips.get(ip, 0)`. -/
def getCount (m : ActiveIPs) (ip : String) : Nat := (m ip).getD 0

/-- Python `active_ips[ip] = v`. -/
def setEntry (m : ActiveIPs) (ip : String) (v : Nat) : ActiveIPs :=
  fun k => if k = ip then some v else m k

/-- Python `del active_ips[ip]`. -/
def delEntry (m : ActiveIPs) (ip : String) : ActiveIPs :=
  fun k => if k = ip then none else m k

/-- Admission acquisition, the guarded section of server.py `handle_client`
(lines 106-113, under `active_ips_lock`): if the address's counter is already
at least 1 the request is refused and the dict is untouched; otherwise the
counter is set to `get(ip, 0) + 1`. -/
def try_acquire (m : ActiveIPs) (ip : String) : Bool × ActiveIPs :=
  if getCount m ip ≥ 1 then (false, m)
  else (true, setEntry m ip (getCount m ip + 1))

/-- Admission release, the `finally` block of server.py `handle_client`
(lines 150-153, under `active_ips_lock`): `active_ips[ip] -= 1`, then the entry
is deleted when it reaches zero. In every reachable call the entry is present
with a positive counter, so the Nat subtraction is exact. -/
def release (m : ActiveIPs) (ip : String) : ActiveIPs :=
  let m1 := setEntry m ip (getCount m ip - 1)
  if getCount m1 ip = 0 then delEntry m1 ip else m1

/-- Admission branch of `handle_client` including the response sent on the
rejected path (server.py lines 106-113): the pair (status, message) of the error
Response, or `none` when admitted. -/
def handle_client_admission (m : ActiveIPs) (ip : String) :
    Bool × ActiveIPs × Option (String × String) :=
  if getCount m ip ≥ 1 then
    (false, m, some ("error", "Only one processing per IP is allowed."))
  else
    (true, setEntry m ip (getCount m ip + 1), none)

/-- Server state for the admission-control transition system: the `active_ips`
dict plus the multiset of addresses whose handler is between its successful
acquisition and its `finally` block. -/
structure ServerState where
  active_ips : ActiveIPs
  inflight : List String

/-- Initial server state: empty dict, no handler running. -/
def initState : ServerState := ServerState.mk emptyIPs []

/-- One atomic admission event of the server (each case runs under
`active_ips_lock` in server.py `handle_client`): a request admitted from a
quiescent address, a concurrent request rejected, or an admitted handler
reaching its `finally` block and releasing. -/
inductive ServerStep : ServerState → ServerState → Prop where
  | acquireOk (ip : String) (s : ServerState) :
      getCount s.active_ips ip = 0 →
      ServerStep s (ServerState.mk (try_acquire s.active_ips ip).2 (ip :: s.inflight))
  | reject (ip : String) (s : ServerState) :
      getCount s.active_ips ip ≥ 1 →
      ServerStep s (ServerState.mk (try_acquire s.active_ips ip).2 s.inflight)
  | finish (ip : String) (s : ServerState) :
      ip ∈ s.inflight →
      ServerStep s (ServerState.mk (release s.active_ips ip) (s.inflight.erase ip))

/-- States reachable from the freshly started server. -/
def Reachable (s : ServerState) : Prop :=
  Relation.ReflTransGen ServerStep initState s

theorem getCount_setEntry_self (m : ActiveIPs) (ip : String) (v : Nat) :
    getCount (setEntry m ip v) ip = v := by
  simp [getCount, setEntry]

theorem getCount_setEntry_other (m : ActiveIPs) (ip k : String) (v : Nat)
    (h : k ≠ ip) : getCount (setEntry m ip v) k = getCount m k := by
  simp [getCount, setEntry, h]

theorem getCount_release_le (m : ActiveIPs) (ip k : String) :
    getCount (release m ip) k ≤ getCount m k := by
  by_cases hk : k = ip
  · subst hk
    unfold release
    by_cases h0 : getCount (setEntry m k (getCount m k - 1)) k = 0
    · rw [if_pos h0]
      simp [getCount, delEntry]
    · rw [if_neg h0]
      rw [getCount_setEntry_self]
      omega
  · unfold release
    by_cases h0 : getCount (setEntry m ip (getCount m ip - 1)) ip = 0
    · rw [if_pos h0]
      simp [getCount, delEntry, hk, setEntry]
    · rw [if_neg h0]
      rw [getCount_setEntry_other m ip k _ hk]

theorem step_preserves_bound {s t : ServerState} (h : ServerStep s t)
    (inv : ∀ ip, getCount s.active_ips ip ≤ 1) :
    ∀ ip, getCount t.active_ips ip ≤ 1 := by
  cases h with
  | acquireOk ip s h0 =>
    intro k
    simp only [try_acquire]
    rw [if_neg (by omega)]
    by_cases hk : k = ip
    · subst hk
      simp [getCount_setEntry_self, h0]
    · rw [getCount_setEntry_other _ _ _ _ hk]
      exact inv k
  | reject ip s h0 =>
    intro k
    simp only [try_acquire, if_pos h0]
    exact inv k
  | finish ip s h0 =>
    intro k
    exact le_trans (getCount_release_le _ _ _) (inv k)

/-- Claim C3: (a) at every reachable server state no address's active-operation
counter exceeds 1; (b) while a request from an address is in flight (counter at
least 1), a second request from that address is rejected with the dict untouched
and the error Response "Only one processing per IP is allowed."; (c) once the
first request releases, a new request from that address is admitted. -/
theorem c3_admission :
    (∀ s, Reachable s → ∀ ip, getCount s.active_ips ip ≤ 1) ∧
    (∀ m ip, getCount m ip ≥ 1 →
      handle_client_admission m ip
        = (false, m, some ("error", "Only one processing per IP is allowed."))) ∧
    (∀ m ip, getCount m ip = 1 → (try_acquire (release m ip) ip).1 = true) := by
  refine ⟨?_, ?_, ?_⟩
  · intro s hs
    induction hs with
    | refl => intro ip; simp [initState, getCount, emptyIPs]
    | tail _ hstep ih => exact step_preserves_bound hstep ih
  · intro m ip h
    unfold handle_client_admission
    rw [if_pos h]
  · intro m ip h
    have hrel : getCount (release m ip) ip = 0 := by
      unfold release
      rw [h]
      have h0 : getCount (setEntry m ip (1 - 1)) ip = 0 := by
        rw [getCount_setEntry_self]
      rw [if_pos h0]
      simp [getCount, delEntry]
    unfold try_acquire
    rw [hrel]
    rw [if_neg (by omega)]

/-- Witness for C3: a state reached by one admission keeps the counter at 1;
with the counter at 1 a concurrent request is rejected with the exact error
message; after release the address is admitted again. -/
theorem c3_witness :
    getCount (ServerState.mk (try_acquire emptyIPs "10.0.0.1").2
        ["10.0.0.1"]).active_ips "10.0.0.1" ≤ 1 ∧
    handle_client_admission (setEntry emptyIPs "10.0.0.1" 1) "10.0.0.1"
      = (false, setEntry emptyIPs "10.0.0.1" 1,
          some ("error", "Only one processing per IP is allowed.")) ∧
    (try_acquire (release (setEntry emptyIPs "10.0.0.1" 1) "10.0.0.1") "10.0.0.1").1
      = true :=
  ⟨c3_admission.1 _
      (Relation.ReflTransGen.single (ServerStep.acquireOk "10.0.0.1" initState rfl))
      "10.0.0.1",
    c3_admission.2.1 _ "10.0.0.1"
      (by rw [getCount_setEntry_self]),
    c3_admission.2.2 _ "10.0.0.1" (getCount_setEntry_self _ _ _)⟩

/-- How the body of `handle_client` after a successful acquisition ends: either
`process_request` returned a result dict that is sent as the final response, or
some exception (transport error, validation error, transcoder error, unexpected
fault) reached the `except` clause, which sends an error response with the
exception text. Both continue into the same `finally` block. -/
inductive BodyOutcome where
  | ok (status message media_type : String) (payload : List Nat)
  | exn (message : String)

/-- Admission action performed on the shared dict, for counting
acquire/release occurrences per connection. -/
inductive AdmAction where
  | acquire (ip : String)
  | release (ip : String)
deriving DecidableEq

/-- Whole-connection admission behavior of server.py `handle_client`
(lines 103-154): on the rejected path the counter is never touched and an error
response is sent; on the admitted path the counter is incremented once, the
try/except body runs to one of its outcomes, and the `finally` block releases
exactly once whatever the outcome was. Returns the final dict, the admission
actions in order, and the responses sent. -/
def handle_client_full (m : ActiveIPs) (ip : String) (outcome : BodyOutcome) :
    ActiveIPs × List AdmAction × List (Option (List Nat)) :=
  if getCount m ip ≥ 1 then
    (m, [], [send_response "error" "Only one processing per IP is allowed." "" []])
  else
    (release (setEntry m ip (getCount m ip + 1)) ip,
      [AdmAction.acquire ip, AdmAction.release ip],
      [match outcome with
        | BodyOutcome.ok st msg mt pl => send_response st msg mt pl
        | BodyOutcome.exn e => send_response "error" e "" []])

/-- Claim C4: whenever admission was acquired, release runs exactly once on every
exit path (normal completion or any exception), decrementing the counter back and
deleting the map entry at zero, leaving other addresses untouched; on the
admission-rejected path the dict is not modified at all because acquisition never
succeeded. -/
theorem c4_release_contract (m : ActiveIPs) (ip : String) (outcome : BodyOutcome) :
    (getCount m ip ≥ 1 →
      (handle_client_full m ip outcome).1 = m ∧
        (handle_client_full m ip outcome).2.1 = []) ∧
    (getCount m ip = 0 →
      (handle_client_full m ip outcome).2.1
          = [AdmAction.acquire ip, AdmAction.release ip] ∧
        getCount (handle_client_full m ip outcome).1 ip = 0 ∧
        (handle_client_full m ip outcome).1 ip = none ∧
        ∀ k, k ≠ ip → (handle_client_full m ip outcome).1 k = m k) := by
  constructor
  · intro h
    unfold handle_client_full
    rw [if_pos h]
    exact ⟨rfl, rfl⟩
  · intro h
    have hne : ¬ getCount m ip ≥ 1 := by omega
    unfold handle_client_full
    rw [if_neg hne]
    refine ⟨rfl, ?_, ?_, ?_⟩
    · show getCount (release (setEntry m ip (getCount m ip + 1)) ip) ip = 0
      simp only [release, getCount_setEntry_self, h]
      norm_num
      simp [getCount, delEntry]
    · show release (setEntry m ip (getCount m ip + 1)) ip ip = none
      simp only [release, getCount_setEntry_self, h]
      norm_num
      simp [delEntry]
    · intro k hk
      show release (setEntry m ip (getCount m ip + 1)) ip k = m k
      simp only [release, getCount_setEntry_self, h]
      norm_num
      simp [delEntry, setEntry, hk]

/-- Witness for C4: with the counter busy the handler performs no admission
action; from a quiescent dict an admitted handler whose body raised an exception
still acquires and releases exactly once and leaves no entry behind. -/
theorem c4_witness :
    (handle_client_full (setEntry emptyIPs "9.9.9.9" 1) "9.9.9.9"
        (BodyOutcome.exn "boom")).2.1 = [] ∧
    (handle_client_full emptyIPs "9.9.9.9" (BodyOutcome.exn "boom")).2.1
        = [AdmAction.acquire "9.9.9.9", AdmAction.release "9.9.9.9"] ∧
    (handle_client_full emptyIPs "9.9.9.9" (BodyOutcome.exn "boom")).1 "9.9.9.9"
        = none :=
  ⟨((c4_release_contract (setEntry emptyIPs "9.9.9.9" 1) "9.9.9.9"
        (BodyOutcome.exn "boom")).1
      (by rw [getCount_setEntry_self])).2,
    ((c4_release_contract emptyIPs "9.9.9.9" (BodyOutcome.exn "boom")).2 rfl).1,
    ((c4_release_contract emptyIPs "9.9.9.9" (BodyOutcome.exn "boom")).2 rfl).2.2.1⟩

/-- The parsed request JSON (server.py line 169, `json.loads(json_args)`), with
one optional slot per key the dispatcher looks up via `.get`: a `none` models a
missing key. Numeric parameters are modeled as integers; only their presence and
Python truthiness drive the control flow under verification. -/
structure RequestArgs where
  operation : Option String
  width : Option Int
  height : Option Int
  aspectRatio : Option String
  start_time : Option Int
  duration : Option Int

/-- Python truthiness test `not x` for an optional integer: true for a missing
key (`None`) and for the value 0. -/
def falsyInt : Option Int → Bool
  | none => true
  | some v => v = 0

/-- Python truthiness test `not x` for an optional string: true for a missing
key (`None`) and for the empty string. -/
def falsyStr : Option String → Bool
  | none => true
  | some s => s = ""

/-- Outcome of one external `ffmpeg ... .run(...)` invocation, the Transcoder
collaborator treated as a black box. -/
inductive TranscodeResult where
  | ok
  | fail (message : String)

/-- The Python value produced by `process_request` as seen by `handle_client`:
a result dict, a raised exception (propagating out of the function after the
`except` clause re-raises), or — on the `change_aspect_ratio` missing-parameter
path (server.py line 193) — a `ValueError` object that is `return`ed instead of
raised. -/
inductive PyResult where
  | dict (status message media_type : String) (payload : List Nat)
  | raised (message : String)
  | valueErrorObject (message : String)

/-- Shared tail of every dispatch branch that reaches the Transcoder
(server.py lines 171-251): run ffmpeg once; on failure the exception propagates
to the `except` clause which removes the input file and re-raises (the output
file was not produced); on success the output file is read back, the input file
is removed (line 247) and the result dict is returned — the produced output file
is not removed. The last component is the list of files left in the uploads
directory. -/
def runAndFinish (_inPath outPath ext : String) (transcoder : TranscodeResult)
    (outputBytes : List Nat) : PyResult × Nat × List String :=
  match transcoder with
  | TranscodeResult.fail msg => (PyResult.raised msg, 1, [])
  | TranscodeResult.ok =>
    (PyResult.dict "success" "Processing completed." ext outputBytes, 1, [outPath])

/-- server.py `process_request` (lines 157-251): write the payload to a
uuid-named input file (names abstracted to fixed paths, uniqueness is not under
verification), dispatch on `operation`, validate the variant's parameters, run
the Transcoder, clean up and return. Result components: the Python return/raise
value, the number of Transcoder invocations, and the files left in the uploads
directory. -/
def process_request (args : RequestArgs) (media_type : String)
    (transcoder : TranscodeResult) (outputBytes : List Nat) :
    PyResult × Nat × List String :=
  match args.operation with
  | some "compress" =>
    runAndFinish ("uploads/input." ++ media_type) "uploads/output.mp4" "mp4"
      transcoder outputBytes
  | some "change_resolution" =>
    if falsyInt args.width || falsyInt args.height then
      (PyResult.raised "Width and height must be specified for resolution change.",
        0, [])
    else
      runAndFinish ("uploads/input." ++ media_type) "uploads/output.mp4" "mp4"
        transcoder outputBytes
  | some "change_aspect_ratio" =>
    if falsyStr args.aspectRatio then
      (PyResult.valueErrorObject "Aspect ratio must be specified.",
        0, ["uploads/input." ++ media_type])
    else
      runAndFinish ("uploads/input." ++ media_type) "uploads/output.mp4" "mp4"
        transcoder outputBytes
  | some "extract_audio" =>
    runAndFinish ("uploads/input." ++ media_type) "uploads/audio.mp3" "mp3"
      transcoder outputBytes
  | some "create_gif" =>
    if args.start_time.isNone || args.duration.isNone then
      (PyResult.raised "Start time and duration must be specified.", 0, [])
    else
      runAndFinish ("uploads/input." ++ media_type) "uploads/gif.gif" "gif"
        transcoder outputBytes
  | some "create_webm" =>
    if args.start_time.isNone || args.duration.isNone then
      (PyResult.raised "Start time and duration must be specified for WEBM creation.",
        0, [])
    else
      runAndFinish ("uploads/input." ++ media_type) "uploads/webm.webm" "webm"
        transcoder outputBytes
  | _ => (PyResult.raised "Unsupported operation.", 0, [])

/-- What server.py `handle_client` (lines 134-146) sends for each possible
`process_request` value: a dict is forwarded as the final response (line 141);
a raised exception is caught and sent as an error response with its text
(line 146); a returned `ValueError` object makes `result['status']` on line 141
raise `TypeError`, which the same `except` clause turns into an error response
with the interpreter's message. The handler itself never crashes. -/
def handle_result (r : PyResult) : String × String × String × List Nat :=
  match r with
  | PyResult.dict s msg mt pl => (s, msg, mt, pl)
  | PyResult.raised msg => ("error", msg, "", [])
  | PyResult.valueErrorObject _ =>
    ("error", "\x27ValueError\x27 object is not subscriptable", "", [])

/-- The output path left behind by the successful branch of each operation. -/
def outputPathOf : Option String → String
  | some "extract_audio" => "uploads/audio.mp3"
  | some "create_gif" => "uploads/gif.gif"
  | some "create_webm" => "uploads/webm.webm"
  | _ => "uploads/output.mp4"

/-- Claim C5: for every operation variant, a request missing a required parameter
of that variant yields a client-visible error Response, the Transcoder is never
invoked, and the handler does not crash (it always produces a response tuple). -/
theorem c5_missing_params (op : Option String) (w hgt : Option Int)
    (ar : Option String) (st d : Option Int) (media_type : String)
    (tc : TranscodeResult) (ob : List Nat)
    (h : (op = some "change_resolution" ∧ (w = none ∨ hgt = none))
      ∨ (op = some "change_aspect_ratio" ∧ ar = none)
      ∨ (op = some "create_gif" ∧ (st = none ∨ d = none))
      ∨ (op = some "create_webm" ∧ (st = none ∨ d = none))) :
    (process_request (RequestArgs.mk op w hgt ar st d) media_type tc ob).2.1 = 0 ∧
    (handle_result
        (process_request (RequestArgs.mk op w hgt ar st d) media_type tc ob).1).1
      = "error" := by
  rcases h with ⟨hop, hwh⟩ | ⟨hop, har⟩ | ⟨hop, hsd⟩ | ⟨hop, hsd⟩ <;> subst hop
  · have hfal : (falsyInt w || falsyInt hgt) = true := by
      rcases hwh with hw | hh
      · subst hw; simp [falsyInt]
      · subst hh; simp [falsyInt]
    simp [process_request, hfal, handle_result]
  · subst har
    simp [process_request, falsyStr, handle_result]
  · have hfal : (st.isNone || d.isNone) = true := by
      rcases hsd with hs | hd
      · subst hs; simp
      · subst hd; simp
    simp [process_request, hfal, handle_result]
  · have hfal : (st.isNone || d.isNone) = true := by
      rcases hsd with hs | hd
      · subst hs; simp
      · subst hd; simp
    simp [process_request, hfal, handle_result]

/-- Witness for C5: a change_resolution request with the height key absent. -/
theorem c5_witness :
    (process_request
        (RequestArgs.mk (some "change_resolution") (some 640) none none none none)
        "mp4" TranscodeResult.ok []).2.1 = 0 ∧
    (handle_result (process_request
        (RequestArgs.mk (some "change_resolution") (some 640) none none none none)
        "mp4" TranscodeResult.ok []).1).1 = "error" :=
  c5_missing_params (some "change_resolution") (some 640) none none none none
    "mp4" TranscodeResult.ok [] (Or.inl ⟨rfl, Or.inr rfl⟩)

/-- Claim C9 counterexample: a successful compress request leaves the produced
output file in the uploads directory — the scratch-file set after the result is
captured is not empty. -/
theorem c9_counterexample :
    (process_request (RequestArgs.mk (some "compress") none none none none none)
        "mp4" TranscodeResult.ok [1]).2.2 = ["uploads/output.mp4"] ∧
    (["uploads/output.mp4"] : List String) ≠ [] := by
  exact ⟨rfl, by decide⟩

/-- Claim C9 (amended): the temporary input file is removed when
`process_request` raises (any failure path) and on success, but (i) on success
the produced output file remains in the uploads directory — it is never removed
— and (ii) on the `change_aspect_ratio` missing-parameter path the `ValueError`
is returned instead of raised, bypassing the cleanup, so the input file itself
is left behind. -/
theorem c9_amended (op : Option String) (w hgt : Option Int) (ar : Option String)
    (st d : Option Int) (media_type : String) (tc : TranscodeResult)
    (ob : List Nat) :
    (∀ msg, (process_request (RequestArgs.mk op w hgt ar st d) media_type tc ob).1
        = PyResult.raised msg →
      (process_request (RequestArgs.mk op w hgt ar st d) media_type tc ob).2.2
        = []) ∧
    (∀ s msg mt pl,
      (process_request (RequestArgs.mk op w hgt ar st d) media_type tc ob).1
        = PyResult.dict s msg mt pl →
      (process_request (RequestArgs.mk op w hgt ar st d) media_type tc ob).2.2
        = [outputPathOf op]) ∧
    (∀ msg, (process_request (RequestArgs.mk op w hgt ar st d) media_type tc ob).1
        = PyResult.valueErrorObject msg →
      (process_request (RequestArgs.mk op w hgt ar st d) media_type tc ob).2.2
        = ["uploads/input." ++ media_type]) := by
  simp only [process_request]
  split <;> (try split) <;> cases tc <;> refine ⟨?_, ?_, ?_⟩ <;> intros <;>
    first
    | rfl
    | simp_all [runAndFinish, outputPathOf]

/-- Witness for the amended C9: the change_aspect_ratio missing-parameter path
leaves the input file behind, and a failed transcode leaves nothing behind. -/
theorem c9_amended_witness :
    (process_request
        (RequestArgs.mk (some "change_aspect_ratio") none none none none none)
        "mp4" TranscodeResult.ok []).2.2 = ["uploads/input." ++ "mp4"] ∧
    (process_request (RequestArgs.mk (some "compress") none none none none none)
        "mp4" (TranscodeResult.fail "ffmpeg error") []).2.2 = [] :=
  ⟨(c9_amended (some "change_aspect_ratio") none none none none none "mp4"
        TranscodeResult.ok []).2.2 "Aspect ratio must be specified." rfl,
    (c9_amended (some "compress") none none none none none "mp4"
        (TranscodeResult.fail "ffmpeg error") []).1 "ffmpeg error" rfl⟩

/-- Claim C10: a change_resolution request whose width or height is present with
value 0 is rejected exactly like one where the parameter is absent — the same
result, the same "Width and height must be specified for resolution change."
error, zero Transcoder invocations — because Python's `not width` treats 0 and a
missing key alike. -/
theorem c10_zero_falsy (hgt : Option Int) (w : Option Int) (ar : Option String)
    (st d : Option Int) (media_type : String) (tc : TranscodeResult)
    (ob : List Nat) :
    process_request (RequestArgs.mk (some "change_resolution") (some 0) hgt ar st d)
        media_type tc ob
      = process_request (RequestArgs.mk (some "change_resolution") none hgt ar st d)
        media_type tc ob ∧
    process_request (RequestArgs.mk (some "change_resolution") (some 0) hgt ar st d)
        media_type tc ob
      = (PyResult.raised "Width and height must be specified for resolution change.",
          0, []) ∧
    process_request (RequestArgs.mk (some "change_resolution") w (some 0) ar st d)
        media_type tc ob
      = (PyResult.raised "Width and height must be specified for resolution change.",
          0, []) := by
  refine ⟨?_, ?_, ?_⟩
  · simp [process_request, falsyInt]
  · simp [process_request, falsyInt]
  · simp [process_request, falsyInt]

end VCS
